import Mathlib

/-!
Shallow embedding of the calculation engines of the CubeSat budget analyzer
(`src/model/data_budget.py`, `src/model/data_budget_model.py`,
`src/model/link_budget.py`, `src/model/link_budget_model.py`).

Numeric parameters entered by the caller are modelled as rationals (`ℚ`);
the data-budget computations stay in `ℚ`, while the link-budget computations,
which use `log10`, `exp`, `sqrt` and `π`, are modelled in exact real
arithmetic (`ℝ`).  Python `datetime` values are modelled as rational numbers
of seconds on an absolute time axis, and `datetime.now()` becomes an explicit
`now` argument (the hidden clock input of `_generate_timeline`).  The
human-readable recommendation / status strings produced by the engines are
formatted prose for the GUI; no claim is about their content, so the result
records embed the numeric fields only.
-/

namespace CubesatBudget

/-! ### Data budget: `DataBudgetCalculator` (src/model/data_budget.py) -/

/-- Conversion factor `MB_TO_BITS = 8 * 1024 * 1024` from
`DataBudgetCalculator.__init__`. -/
def MB_TO_BITS : ℚ := 8 * 1024 * 1024

/-- Numeric fields of `DataBudgetResult` from `src/model/data_budget.py`
(the `recommendations` list of formatted strings is omitted). -/
structure DataBudgetResult where
  data_generated : ℚ
  downlink_capacity : ℚ
  storage_required : ℚ
  storage_available : ℚ
  backlog : ℚ
  days_until_full : Option ℚ
deriving DecidableEq

/-- `DataBudgetCalculator.calculate` (src/model/data_budget.py lines 20-93):
daily data generation vs. downlink capacity, storage headroom, backlog and
days-until-full. -/
def DataBudgetCalculator.calculate (data_rate duty_cycle downlink_rate
    downlink_duration storage_capacity current_storage : ℚ) : DataBudgetResult :=
  let seconds_per_day : ℚ := 24 * 3600
  let data_generated := data_rate * duty_cycle / 100 * seconds_per_day / MB_TO_BITS
  let downlink_capacity := downlink_rate * downlink_duration * 3600 / MB_TO_BITS
  let storage_required := current_storage + data_generated
  let storage_available := storage_capacity - storage_required
  let backlog := max 0 (data_generated - downlink_capacity)
  let days_until_full : Option ℚ :=
    if data_generated > downlink_capacity then
      some (storage_available / (data_generated - downlink_capacity))
    else none
  { data_generated := data_generated
    downlink_capacity := downlink_capacity
    storage_required := storage_required
    storage_available := storage_available
    backlog := backlog
    days_until_full := days_until_full }

/-! ### Data budget: `DataBudgetModel` (src/model/data_budget_model.py) -/

/-- Parameter dictionary of `DataBudgetModel` (payload_data_rate in Mbps,
storage_capacity in GB, downlink_rate in Mbps, pass_duration in minutes,
passes_per_day as a count). -/
structure DataBudgetModelParams where
  payload_data_rate : ℚ
  storage_capacity : ℚ
  downlink_rate : ℚ
  pass_duration : ℚ
  passes_per_day : ℚ
deriving DecidableEq

/-- Numeric fields of the `DataBudgetResult` dataclass of
`src/model/data_budget_model.py` (the `storage_status` /
`recommendations` strings are omitted). -/
structure DataBudgetModelResult where
  total_data_per_day : ℚ
  available_downlink_per_day : ℚ
  storage_backlog : ℚ
deriving DecidableEq

/-- Daily data generation of `DataBudgetModel.calculate`:
`payload_data_rate * 3600 * 24 / (8 * 1024)` (GB). -/
def DataBudgetModel.dataPerDay (p : DataBudgetModelParams) : ℚ :=
  p.payload_data_rate * 3600 * 24 / (8 * 1024)

/-- Downlink capacity per pass of `DataBudgetModel.calculate`:
`downlink_rate * pass_duration * 60 / (8 * 1024)` (GB). -/
def DataBudgetModel.downlinkPerPass (p : DataBudgetModelParams) : ℚ :=
  p.downlink_rate * p.pass_duration * 60 / (8 * 1024)

/-- Total daily downlink of `DataBudgetModel.calculate`. -/
def DataBudgetModel.totalDownlink (p : DataBudgetModelParams) : ℚ :=
  DataBudgetModel.downlinkPerPass p * p.passes_per_day

/-- Validation message of `DataBudgetModel._validate_inputs` for a negative
parameter. -/
def DataBudgetModel.msgNegative : String := "All parameters must be non-negative."

/-- Validation message of `DataBudgetModel._validate_inputs` for a zero
storage capacity. -/
def DataBudgetModel.msgStorageZero : String := "Storage capacity must be greater than zero."

/-- Validation message of `DataBudgetModel._validate_inputs` for a zero
payload data rate. -/
def DataBudgetModel.msgRateZero : String := "Payload data rate must be greater than zero."

/-- `DataBudgetModel._validate_inputs` (src/model/data_budget_model.py
lines 58-65): returns the message of the `ValueError` raised, if any. -/
def DataBudgetModel.validateInputs (p : DataBudgetModelParams) : Option String :=
  if p.payload_data_rate < 0 ∨ p.storage_capacity < 0 ∨ p.downlink_rate < 0 ∨
      p.pass_duration < 0 ∨ p.passes_per_day < 0 then
    some DataBudgetModel.msgNegative
  else if p.storage_capacity = 0 then some DataBudgetModel.msgStorageZero
  else if p.payload_data_rate = 0 then some DataBudgetModel.msgRateZero
  else none

/-- Numeric core of `DataBudgetModel.calculate` (lines 29-56): the result
record built after validation succeeds.  Note the returned `storage_backlog`
is the signed difference `data_per_day - total_downlink`, not clamped at 0. -/
def DataBudgetModel.compute (p : DataBudgetModelParams) : DataBudgetModelResult :=
  { total_data_per_day := DataBudgetModel.dataPerDay p
    available_downlink_per_day := DataBudgetModel.totalDownlink p
    storage_backlog := DataBudgetModel.dataPerDay p - DataBudgetModel.totalDownlink p }

/-- `DataBudgetModel.calculate`: validation (raising `ValueError`) followed by
the numeric computation. -/
def DataBudgetModel.calculate (p : DataBudgetModelParams) :
    Except String DataBudgetModelResult :=
  match DataBudgetModel.validateInputs p with
  | some msg => Except.error msg
  | none => Except.ok (DataBudgetModel.compute p)

/-! ### Data budget: timeline variant (`_generate_timeline`, `_calculate_max_storage`) -/

/-- A downlink opportunity window, `{'start': ..., 'end': ..., 'downlink_rate': ...}`.
The ISO timestamps are modelled as rational seconds on an absolute time axis;
`downlink_rate` is `Option`al, mirroring `window.get('downlink_rate', 1e6)`.
The dictionary key `end` is a Lean keyword, so the field is named `stop`. -/
structure DownlinkWindow where
  start : ℚ
  stop : ℚ
  downlink_rate : Option ℚ
deriving DecidableEq

/-- The `sorted(opportunities, key=lambda x: x['start'])` step of
`_generate_timeline`, modelled by a stable insertion sort on the start time. -/
def sortWindows (ws : List DownlinkWindow) : List DownlinkWindow :=
  List.insertionSort (fun a b => a.start ≤ b.start) ws

/-- Loop body of `DataBudgetCalculator._generate_timeline`
(src/model/data_budget.py lines 187-218): walk the sorted windows carrying
`last_time` and `cumulative_data`, emitting a `(timestamp, cumulative)` sample
at each window start and end, then a final sample at mission end when
`last_time < end_time`. -/
def timelineGo (data_rate_bps end_time : ℚ) :
    List DownlinkWindow → ℚ → ℚ → List (ℚ × ℚ)
  | [], last_time, cumulative_data =>
    if last_time < end_time then
      [(end_time, cumulative_data + (end_time - last_time) * data_rate_bps / MB_TO_BITS)]
    else []
  | w :: ws, last_time, cumulative_data =>
    let afterGen := cumulative_data + (w.start - last_time) * data_rate_bps / MB_TO_BITS
    let afterDownlink :=
      max 0 (afterGen - (w.stop - w.start) * (w.downlink_rate.getD 1000000) / MB_TO_BITS)
    (w.start, afterGen) :: (w.stop, afterDownlink) ::
      timelineGo data_rate_bps end_time ws w.stop afterDownlink

/-- `DataBudgetCalculator._generate_timeline` (lines 173-220).  `now` is the
value of `datetime.now()` at call entry, made explicit; the mission ends at
`now + mission_duration_hours` hours. -/
def generateTimeline (data_rate_bps : ℚ) (opportunities : List DownlinkWindow)
    (mission_duration_hours now : ℚ) : List (ℚ × ℚ) :=
  timelineGo data_rate_bps (now + mission_duration_hours * 3600)
    (sortWindows opportunities) now 0

/-- Python `max(point[1] for point in timeline)`: `none` on an empty timeline
(where Python raises `ValueError`). -/
def maxTimeline (timeline : List (ℚ × ℚ)) : Option ℚ :=
  match timeline with
  | [] => none
  | p :: ps => some (ps.foldl (fun m q => max m q.2) p.2)

/-- `DataBudgetCalculator._calculate_max_storage` (lines 165-171): the peak of
the generated timeline. -/
def calculateMaxStorage (data_rate_bps : ℚ) (opportunities : List DownlinkWindow)
    (mission_duration_hours now : ℚ) : Option ℚ :=
  maxTimeline (generateTimeline data_rate_bps opportunities mission_duration_hours now)

/-- A window list is chronologically consistent from time `t`: each window
starts no earlier than the previous marker (`t`, then the previous window's
end).  This is what the clamping argument of the timeline needs; it holds
exactly when the sorted windows are pairwise non-overlapping and start no
earlier than `t`. -/
def wellOrdered : ℚ → List DownlinkWindow → Prop
  | _, [] => True
  | t, w :: ws => t ≤ w.start ∧ wellOrdered w.stop ws

/-- The cumulative-storage values of a timeline are monotonically
non-decreasing along the sample sequence. -/
def valuesMonotone (timeline : List (ℚ × ℚ)) : Prop :=
  List.Chain' (fun a b => a.2 ≤ b.2) timeline

/-! ### Link budget: `LinkBudgetModel` (src/model/link_budget_model.py) -/

/-- The parameter dictionary of `LinkBudgetModel` (transmit power dBm, gains
dBi, frequency GHz, distance km, temperature K, bandwidth MHz, required SNR
dB, atmospheric loss dB). -/
structure LinkBudgetModelParams where
  transmit_power : ℚ
  transmit_antenna_gain : ℚ
  receive_antenna_gain : ℚ
  frequency : ℚ
  distance : ℚ
  system_temperature : ℚ
  receiver_bandwidth : ℚ
  required_snr : ℚ
  atmospheric_loss : ℚ
deriving DecidableEq

/-- Numeric fields of the `LinkBudgetResult` dataclass of
`src/model/link_budget_model.py` (the `status` / `recommendations` strings
are omitted). -/
structure LinkBudgetModelResult where
  received_power : ℝ
  noise_power : ℝ
  carrier_to_noise : ℝ
  bit_error_rate : ℝ
  link_margin : ℝ

/-- Validation message of `LinkBudgetModel._validate_inputs` when every
parameter is zero. -/
def LinkBudgetModel.msgAllZero : String :=
  "All input values are zero. Please enter valid values."

/-- Validation message of `LinkBudgetModel._validate_inputs` for zero
frequency. -/
def LinkBudgetModel.msgFreqZero : String := "Frequency cannot be zero."

/-- Validation message of `LinkBudgetModel._validate_inputs` for zero
distance. -/
def LinkBudgetModel.msgDistZero : String := "Free Space Path Loss cannot be zero."

/-- The `all(v == 0 for v in self._parameters.values())` guard of
`LinkBudgetModel._validate_inputs`. -/
def LinkBudgetModel.allZero (p : LinkBudgetModelParams) : Prop :=
  p.transmit_power = 0 ∧ p.transmit_antenna_gain = 0 ∧ p.receive_antenna_gain = 0 ∧
    p.frequency = 0 ∧ p.distance = 0 ∧ p.system_temperature = 0 ∧
    p.receiver_bandwidth = 0 ∧ p.required_snr = 0 ∧ p.atmospheric_loss = 0

instance (p : LinkBudgetModelParams) : Decidable (LinkBudgetModel.allZero p) := by
  unfold LinkBudgetModel.allZero; infer_instance

/-- `LinkBudgetModel._validate_inputs` (src/model/link_budget_model.py lines
61-68): the message of the `ValueError` raised, if any. -/
def LinkBudgetModel.validateInputs (p : LinkBudgetModelParams) : Option String :=
  if LinkBudgetModel.allZero p then some LinkBudgetModel.msgAllZero
  else if p.frequency = 0 then some LinkBudgetModel.msgFreqZero
  else if p.distance = 0 then some LinkBudgetModel.msgDistZero
  else none

/-- `wavelength = 3e8 / (frequency * 1e9)` from
`LinkBudgetModel._calculate_free_space_loss`. -/
noncomputable def LinkBudgetModel.wavelength (p : LinkBudgetModelParams) : ℝ :=
  3e8 / ((p.frequency : ℝ) * 1e9)

/-- `LinkBudgetModel._calculate_free_space_loss` (lines 70-73):
`20 * log10(4 * pi * distance * 1000 / wavelength)`. -/
noncomputable def LinkBudgetModel.freeSpaceLoss (p : LinkBudgetModelParams) : ℝ :=
  20 * Real.logb 10 (4 * Real.pi * (p.distance : ℝ) * 1000 / LinkBudgetModel.wavelength p)

/-- `LinkBudgetModel._calculate_received_power` (lines 75-83). -/
noncomputable def LinkBudgetModel.receivedPower (p : LinkBudgetModelParams) (fsl : ℝ) : ℝ :=
  (p.transmit_power : ℝ) + (p.transmit_antenna_gain : ℝ) + (p.receive_antenna_gain : ℝ) -
    fsl - (p.atmospheric_loss : ℝ)

/-- `LinkBudgetModel._calculate_noise_power` (lines 85-88):
`-228.6 + 10 * log10(T) + 10 * log10(B * 1e6)`. -/
noncomputable def LinkBudgetModel.noisePower (p : LinkBudgetModelParams) : ℝ :=
  -228.6 + 10 * Real.logb 10 (p.system_temperature : ℝ) +
    10 * Real.logb 10 ((p.receiver_bandwidth : ℝ) * 1e6)

/-- `LinkBudgetModel._calculate_bit_error_rate` (lines 90-92):
`0.5 * exp(-(10 ** ((link_margin - snr) / 10)) / 2)`. -/
noncomputable def LinkBudgetModel.bitErrorRate (snr link_margin : ℝ) : ℝ :=
  0.5 * Real.exp (-((10 : ℝ) ^ ((link_margin - snr) / 10)) / 2)

/-- Numeric core of `LinkBudgetModel.calculate` (lines 36-59): the result
record built after validation succeeds. -/
noncomputable def LinkBudgetModel.compute (p : LinkBudgetModelParams) : LinkBudgetModelResult :=
  let fsl := LinkBudgetModel.freeSpaceLoss p
  let received_power := LinkBudgetModel.receivedPower p fsl
  let noise_power := LinkBudgetModel.noisePower p
  let snr := received_power - noise_power
  let link_margin := snr - (p.required_snr : ℝ)
  { received_power := received_power
    noise_power := noise_power
    carrier_to_noise := snr
    bit_error_rate := LinkBudgetModel.bitErrorRate snr link_margin
    link_margin := link_margin }

/-- `LinkBudgetModel.calculate`: validation (raising `ValueError`) followed by
the numeric computation. -/
noncomputable def LinkBudgetModel.calculate (p : LinkBudgetModelParams) :
    Except String LinkBudgetModelResult :=
  match LinkBudgetModel.validateInputs p with
  | some msg => Except.error msg
  | none => Except.ok (LinkBudgetModel.compute p)

/-! ### Link budget: margin-vs-parameter sweep -/

/-- The `param_type` strings accepted by
`LinkBudgetModel.calculate_margin_vs_parameter` ("Frequency", "Distance",
"Modulation"), embedded as an enumeration. -/
inductive ParamType where
  | Frequency
  | Distance
  | Modulation
deriving DecidableEq

/-- The modulation scheme strings of the `mod_penalties` dictionary, plus
`Other` for any string not in the dictionary (where `.get(scheme, 0)` falls
back to 0). -/
inductive ModScheme where
  | QPSK
  | PSK8
  | QAM16
  | QAM64
  | Other
deriving DecidableEq

/-- The `mod_penalties` dictionary lookup `mod_penalties.get(scheme, 0)` of
`_calculate_margin_vs_modulation`. -/
def ModScheme.penalty : ModScheme → ℝ
  | .QPSK => 0
  | .PSK8 => -3
  | .QAM16 => -6
  | .QAM64 => -9
  | .Other => 0

/-- Error message of `calculate_margin_vs_parameter` for an unrecognized
parameter type (`f"Invalid parameter type: {param_type}"`). -/
def LinkBudgetModel.msgInvalidParamType : String := "Invalid parameter type: "

/-- `LinkBudgetModel._calculate_margin_vs_frequency` (lines 121-125): the free
space loss is recomputed from the swept frequency (GHz) and the stored
distance, and the *received power* at that loss is returned. -/
noncomputable def LinkBudgetModel.marginVsFrequency (p : LinkBudgetModelParams)
    (freq_ghz : ℚ) : ℝ :=
  let wl : ℝ := 3e8 / ((freq_ghz : ℝ) * 1e9)
  let fsl := 20 * Real.logb 10 (4 * Real.pi * (p.distance : ℝ) * 1000 / wl)
  LinkBudgetModel.receivedPower p fsl

/-- `LinkBudgetModel._calculate_margin_vs_distance` (lines 127-131): the free
space loss is recomputed from the stored frequency and the swept distance
(km), and the *received power* at that loss is returned. -/
noncomputable def LinkBudgetModel.marginVsDistance (p : LinkBudgetModelParams)
    (distance_km : ℚ) : ℝ :=
  let fsl := 20 * Real.logb 10
    (4 * Real.pi * (distance_km : ℝ) * 1000 / LinkBudgetModel.wavelength p)
  LinkBudgetModel.receivedPower p fsl

/-- `LinkBudgetModel._calculate_margin_vs_modulation` (lines 133-142). -/
noncomputable def LinkBudgetModel.marginVsModulation (p : LinkBudgetModelParams)
    (mod_index : ℚ) (scheme : ModScheme) : ℝ :=
  LinkBudgetModel.marginVsDistance p p.distance + scheme.penalty - (mod_index : ℝ) * 0.5

/-- `LinkBudgetModel.calculate_margin_vs_parameter` (lines 111-119).  The
`modulation` argument defaults to `None` in the source; `param_type ==
"Modulation" and modulation` requires a scheme to be present. -/
noncomputable def LinkBudgetModel.calculateMarginVsParameter (p : LinkBudgetModelParams)
    (param_type : ParamType) (value : ℚ) (modulation : Option ModScheme) :
    Except String ℝ :=
  match param_type, modulation with
  | .Frequency, _ => Except.ok (LinkBudgetModel.marginVsFrequency p value)
  | .Distance, _ => Except.ok (LinkBudgetModel.marginVsDistance p value)
  | .Modulation, some scheme => Except.ok (LinkBudgetModel.marginVsModulation p value scheme)
  | .Modulation, none => Except.error LinkBudgetModel.msgInvalidParamType

/-! ### Link budget: `LinkBudgetCalculator` (src/model/link_budget.py) -/

/-- The propagation-model strings of `LinkBudgetCalculator`
(`['AWGN', 'Rayleigh', 'Rician', 'Log-normal']`), embedded as an
enumeration. -/
inductive PropagationModel where
  | AWGN
  | Rayleigh
  | Rician
  | LogNormal
deriving DecidableEq

/-- Arguments of `LinkBudgetCalculator.calculate` (frequency Hz, powers dBm,
gains dBi, path loss dB, temperature K, bandwidth Hz). -/
structure LinkBudgetCalcParams where
  frequency : ℚ
  tx_power : ℚ
  tx_antenna_gain : ℚ
  rx_antenna_gain : ℚ
  path_loss : ℚ
  noise_temperature : ℚ
  bandwidth : ℚ
  propagation_model : PropagationModel
deriving DecidableEq

/-- The `LinkBudgetResult` dataclass of `src/model/link_budget.py`. -/
structure LinkBudgetCalcResult where
  received_power : ℝ
  carrier_to_noise : ℝ
  bit_error_rate : ℝ
  margin : ℝ

/-- Error message of `LinkBudgetCalculator.calculate` for an unimplemented
propagation model. -/
def LinkBudgetCalculator.msgNotImplemented : String :=
  " propagation model not implemented"

/-- Numeric core of `LinkBudgetCalculator.calculate`
(src/model/link_budget.py lines 45-79): received power computed through
linear watts and converted back to dBm, thermal noise from the Boltzmann
constant, BPSK bit-error rate, and margin against a required C/N of 10 dB. -/
noncomputable def LinkBudgetCalculator.compute (q : LinkBudgetCalcParams) :
    LinkBudgetCalcResult :=
  let tx_power_watts : ℝ := (10 : ℝ) ^ (((q.tx_power : ℝ) - 30) / 10)
  let received_power := tx_power_watts * (10 : ℝ) ^ ((q.tx_antenna_gain : ℝ) / 10) *
    (10 : ℝ) ^ ((q.rx_antenna_gain : ℝ) / 10) * (10 : ℝ) ^ (-(q.path_loss : ℝ) / 10)
  let received_power_db := 10 * Real.logb 10 received_power + 30
  let k : ℝ := 1.380649e-23
  let noise_power := k * (q.noise_temperature : ℝ) * (q.bandwidth : ℝ)
  let noise_power_db := 10 * Real.logb 10 noise_power + 30
  let carrier_to_noise := received_power_db - noise_power_db
  let snr_linear := (10 : ℝ) ^ (carrier_to_noise / 10)
  let bit_error_rate := 0.5 * (1 - Real.sqrt (snr_linear / (1 + snr_linear)))
  let required_cn : ℝ := 10
  let margin := carrier_to_noise - required_cn
  { received_power := received_power_db
    carrier_to_noise := carrier_to_noise
    bit_error_rate := bit_error_rate
    margin := margin }

/-- `LinkBudgetCalculator.calculate` (lines 16-79): rejects every propagation
model other than AWGN with a `NotImplementedError`, otherwise computes the
result record.  No input validation of any kind is performed (in particular
the `frequency` argument is never read). -/
noncomputable def LinkBudgetCalculator.calculate (q : LinkBudgetCalcParams) :
    Except String LinkBudgetCalcResult :=
  if q.propagation_model ≠ PropagationModel.AWGN then
    Except.error LinkBudgetCalculator.msgNotImplemented
  else Except.ok (LinkBudgetCalculator.compute q)

/-! ## Theorems -/

/-- Helper: the `days_until_full` branch of `DataBudgetCalculator.calculate`
written as a single conditional on the clamped backlog. -/
theorem daysUntilFull_ite (dg dc sa : ℚ) :
    (if dg > dc then some (sa / (dg - dc)) else none) =
      (if max 0 (dg - dc) ≤ 0 then none else some (sa / max 0 (dg - dc))) := by
  by_cases h : dc < dg
  · have hm : max 0 (dg - dc) = dg - dc := max_eq_right (by linarith)
    rw [if_pos h, hm, if_neg (by push_neg; linarith)]
  · have hm : max 0 (dg - dc) = 0 := max_eq_left (by linarith)
    rw [if_neg h, hm, if_pos le_rfl]

/-- C1 (amended).  `DataBudgetCalculator.calculate` satisfies the claim for
every input: the returned `backlog` is `max 0 (data_generated -
downlink_capacity)` and `days_until_full` is `none` exactly when the backlog
is `≤ 0` and `storage_available / backlog` otherwise.  `DataBudgetModel`,
the other simple-aggregate variant, instead returns the *signed* difference
`data_per_day - total_downlink` as its `storage_backlog`, without clamping. -/
theorem C1_simple_budget_backlog_daysUntilFull
    (data_rate duty_cycle downlink_rate downlink_duration storage_capacity
      current_storage : ℚ) (p : DataBudgetModelParams) :
    (DataBudgetCalculator.calculate data_rate duty_cycle downlink_rate
        downlink_duration storage_capacity current_storage).backlog =
      max 0 ((DataBudgetCalculator.calculate data_rate duty_cycle downlink_rate
          downlink_duration storage_capacity current_storage).data_generated -
        (DataBudgetCalculator.calculate data_rate duty_cycle downlink_rate
          downlink_duration storage_capacity current_storage).downlink_capacity) ∧
    (DataBudgetCalculator.calculate data_rate duty_cycle downlink_rate
        downlink_duration storage_capacity current_storage).days_until_full =
      (if (DataBudgetCalculator.calculate data_rate duty_cycle downlink_rate
            downlink_duration storage_capacity current_storage).backlog ≤ 0 then none
        else some ((DataBudgetCalculator.calculate data_rate duty_cycle downlink_rate
            downlink_duration storage_capacity current_storage).storage_available /
          (DataBudgetCalculator.calculate data_rate duty_cycle downlink_rate
            downlink_duration storage_capacity current_storage).backlog)) ∧
    (DataBudgetModel.compute p).storage_backlog =
      DataBudgetModel.dataPerDay p - DataBudgetModel.totalDownlink p := by
  refine ⟨rfl, ?_, rfl⟩
  simp only [DataBudgetCalculator.calculate]
  exact daysUntilFull_ite _ _ _

/-- C1 (counterexample to the claim as stated).  On the valid input
`payload_data_rate = 1`, `storage_capacity = 1`, `downlink_rate = 1000`,
`pass_duration = 60`, `passes_per_day = 1`, `DataBudgetModel.calculate`
succeeds but returns `storage_backlog = -13725/32`, which is not
`max 0 (data_generated - downlink_capacity) = 0`. -/
theorem C1_counterexample :
    DataBudgetModel.calculate ⟨1, 1, 1000, 60, 1⟩ =
      Except.ok (DataBudgetModel.compute ⟨1, 1, 1000, 60, 1⟩) ∧
    (DataBudgetModel.compute ⟨1, 1, 1000, 60, 1⟩).storage_backlog ≠
      max 0 ((DataBudgetModel.compute ⟨1, 1, 1000, 60, 1⟩).total_data_per_day -
        (DataBudgetModel.compute ⟨1, 1, 1000, 60, 1⟩).available_downlink_per_day) := by
  constructor
  · norm_num [DataBudgetModel.calculate, DataBudgetModel.validateInputs]
  · norm_num [DataBudgetModel.compute, DataBudgetModel.dataPerDay,
      DataBudgetModel.totalDownlink, DataBudgetModel.downlinkPerPass]

/-- Helper: `MB_TO_BITS` is positive. -/
theorem MB_TO_BITS_pos : (0 : ℚ) < MB_TO_BITS := by norm_num [MB_TO_BITS]

/-- Helper: the timeline loop keeps every emitted cumulative-storage value
non-negative, provided the data rate is non-negative, the running cumulative
value is non-negative, and the windows are chronologically consistent from
the current `last_time` marker. -/
theorem timelineGo_nonneg (data_rate_bps end_time : ℚ) (hr : 0 ≤ data_rate_bps) :
    ∀ (ws : List DownlinkWindow) (t cum : ℚ), 0 ≤ cum → wellOrdered t ws →
      ∀ s ∈ timelineGo data_rate_bps end_time ws t cum, 0 ≤ s.2 := by
  intro ws
  induction ws with
  | nil =>
    intro t cum hcum _ s hs
    simp only [timelineGo] at hs
    by_cases h : t < end_time
    · rw [if_pos h] at hs
      rw [List.mem_singleton] at hs
      subst hs
      have hsub : 0 ≤ end_time - t := by linarith
      have : 0 ≤ (end_time - t) * data_rate_bps / MB_TO_BITS :=
        div_nonneg (mul_nonneg hsub hr) MB_TO_BITS_pos.le
      simpa using by linarith
    · rw [if_neg h] at hs
      simp at hs
  | cons w ws ih =>
    intro t cum hcum hwo s hs
    obtain ⟨hts, hwo'⟩ := hwo
    simp only [timelineGo] at hs
    have hgen : 0 ≤ cum + (w.start - t) * data_rate_bps / MB_TO_BITS := by
      have hsub : 0 ≤ w.start - t := by linarith
      have : 0 ≤ (w.start - t) * data_rate_bps / MB_TO_BITS :=
        div_nonneg (mul_nonneg hsub hr) MB_TO_BITS_pos.le
      linarith
    rcases List.mem_cons.mp hs with rfl | hs
    · exact hgen
    rcases List.mem_cons.mp hs with rfl | hs
    · exact le_max_left _ _
    · exact ih w.stop _ (le_max_left _ _) hwo' s hs

/-- C2 (amended).  If the data rate is non-negative and the windows, taken in
sorted order, are chronologically consistent (each begins no earlier than the
previous one ends, the first no earlier than the call time `now`), then every
`(timestamp, cumulative_storage)` sample of the generated timeline has
`cumulative_storage ≥ 0`. -/
theorem C2_timeline_nonneg (data_rate_bps : ℚ) (opportunities : List DownlinkWindow)
    (mission_duration_hours now : ℚ) (hr : 0 ≤ data_rate_bps)
    (hwo : wellOrdered now (sortWindows opportunities)) :
    ∀ s ∈ generateTimeline data_rate_bps opportunities mission_duration_hours now,
      0 ≤ s.2 :=
  timelineGo_nonneg data_rate_bps (now + mission_duration_hours * 3600) hr
    (sortWindows opportunities) now 0 le_rfl hwo

/-- C2 witness: a concrete chronologically consistent window produces an
everywhere-non-negative timeline. -/
theorem C2_timeline_nonneg_witness :
    (0 : ℚ) ≤ 1 ∧
    wellOrdered 0 (sortWindows [⟨10, 20, some 5⟩]) ∧
    ∀ s ∈ generateTimeline 1 [⟨10, 20, some 5⟩] 1 0, 0 ≤ s.2 :=
  ⟨by norm_num,
   by norm_num [wellOrdered, sortWindows],
   C2_timeline_nonneg 1 [⟨10, 20, some 5⟩] 1 0 (by norm_num)
     (by norm_num [wellOrdered, sortWindows])⟩

/-- C2 (counterexample to the claim as stated).  Both windows lie within the
mission interval `[0, 3600]`, the data rate (1 MB/s) and all downlink rates
are non-negative, yet because the windows overlap, the sample emitted at the
second window's start carries cumulative storage `-8 < 0`. -/
theorem C2_counterexample :
    (0 : ℚ) ≤ 8388608 ∧
    (∀ w ∈ [(⟨0, 10, some 838860800⟩ : DownlinkWindow), ⟨2, 5, some 0⟩],
      (0 : ℚ) ≤ w.start ∧ w.stop ≤ 0 + 1 * 3600 ∧ 0 ≤ w.downlink_rate.getD 1000000) ∧
    ¬ (∀ s ∈ generateTimeline 8388608
        [(⟨0, 10, some 838860800⟩ : DownlinkWindow), ⟨2, 5, some 0⟩] 1 0, 0 ≤ s.2) := by
  refine ⟨by norm_num, ?_, fun h => ?_⟩
  · intro w hw
    rcases List.mem_cons.mp hw with rfl | hw
    · norm_num
    rcases List.mem_cons.mp hw with rfl | hw
    · norm_num
    · simp at hw
  · have hmem : ((2 : ℚ), (-8 : ℚ)) ∈ generateTimeline 8388608
        [(⟨0, 10, some 838860800⟩ : DownlinkWindow), ⟨2, 5, some 0⟩] 1 0 := by
      norm_num [generateTimeline, timelineGo, sortWindows, MB_TO_BITS, Option.getD]
    have := h _ hmem
    norm_num at this

/-- C8.  With zero downlink opportunities and a positive mission duration,
the timeline values are monotonically increasing (the timeline is the single
final sample) and the maximum storage required equals the data rate times the
mission duration in seconds, converted to MB. -/
theorem C8_zero_downlink (data_rate_bps mission_duration_hours now : ℚ)
    (hdur : 0 < mission_duration_hours) :
    valuesMonotone (generateTimeline data_rate_bps [] mission_duration_hours now) ∧
    calculateMaxStorage data_rate_bps [] mission_duration_hours now =
      some (data_rate_bps * (mission_duration_hours * 3600) / MB_TO_BITS) := by
  have hlt : now < now + mission_duration_hours * 3600 := by nlinarith
  have htl : generateTimeline data_rate_bps [] mission_duration_hours now =
      [(now + mission_duration_hours * 3600,
        0 + (now + mission_duration_hours * 3600 - now) * data_rate_bps / MB_TO_BITS)] := by
    simp only [generateTimeline, sortWindows, List.insertionSort, timelineGo, if_pos hlt]
  constructor
  · rw [htl]
    exact List.chain'_singleton _
  · simp only [calculateMaxStorage, htl, maxTimeline, List.foldl_nil, Option.some.injEq]
    ring

/-- C8 witness: 1 bit/s for 24 hours with no downlink windows. -/
theorem C8_zero_downlink_witness :
    valuesMonotone (generateTimeline 1 [] 24 0) ∧
    calculateMaxStorage 1 [] 24 0 = some (1 * (24 * 3600) / MB_TO_BITS) :=
  C8_zero_downlink 1 24 0 (by norm_num)

/-- C9 (counterexample to the claim as stated).  `_generate_timeline` anchors
the mission clock at `datetime.now()`: the identical parameter set (data rate
1 MB/s, one window `[10, 20]` with zero downlink rate, 1 hour mission)
produces different timelines when the call happens at `now = 0` versus
`now = 5`. -/
theorem C9_counterexample :
    generateTimeline 8388608 [⟨10, 20, some 0⟩] 1 0 ≠
      generateTimeline 8388608 [⟨10, 20, some 0⟩] 1 5 := by
  have h1 : generateTimeline 8388608 [⟨10, 20, some 0⟩] 1 0 =
      [(10, 10), (20, 10), (3600, 3590)] := by
    norm_num [generateTimeline, timelineGo, sortWindows, MB_TO_BITS, Option.getD]
  have h2 : generateTimeline 8388608 [⟨10, 20, some 0⟩] 1 5 =
      [(10, 5), (20, 5), (3605, 3590)] := by
    norm_num [generateTimeline, timelineGo, sortWindows, MB_TO_BITS, Option.getD]
  rw [h1, h2]
  intro h
  rw [List.cons.injEq, Prod.mk.injEq] at h
  norm_num at h

/-- C9 (amended).  Each calculation is a pure function of its arguments once
the hidden clock input of the timeline variant is included among them: two
calls with identical parameters — and, for the timeline variant, an identical
call-entry time `now` — yield identical output. -/
theorem C9_determinism (p : LinkBudgetModelParams) (q : LinkBudgetCalcParams)
    (m : DataBudgetModelParams) (a b c d e f : ℚ) (data_rate_bps : ℚ)
    (opportunities : List DownlinkWindow) (mission_duration_hours now : ℚ) :
    LinkBudgetModel.calculate p = LinkBudgetModel.calculate p ∧
    LinkBudgetCalculator.calculate q = LinkBudgetCalculator.calculate q ∧
    DataBudgetModel.calculate m = DataBudgetModel.calculate m ∧
    DataBudgetCalculator.calculate a b c d e f =
      DataBudgetCalculator.calculate a b c d e f ∧
    generateTimeline data_rate_bps opportunities mission_duration_hours now =
      generateTimeline data_rate_bps opportunities mission_duration_hours now :=
  ⟨rfl, rfl, rfl, rfl, rfl⟩

/-- C3 (amended).  `LinkBudgetModel.calculate` raises a `ValueError` whenever
frequency or distance is zero (so it never returns a result record there);
`LinkBudgetCalculator.calculate`, by contrast, performs no input validation —
for the implemented AWGN model it returns a numeric result record
unconditionally, in particular when `frequency = 0` (it has no distance
parameter at all; the path loss is supplied directly). -/
theorem C3_zero_frequency_distance (p : LinkBudgetModelParams)
    (q : LinkBudgetCalcParams) (hp : p.frequency = 0 ∨ p.distance = 0)
    (hq : q.propagation_model = PropagationModel.AWGN) :
    (∃ msg, LinkBudgetModel.calculate p = Except.error msg) ∧
    LinkBudgetCalculator.calculate q = Except.ok (LinkBudgetCalculator.compute q) := by
  constructor
  · have hv : ∃ msg, LinkBudgetModel.validateInputs p = some msg := by
      unfold LinkBudgetModel.validateInputs
      by_cases hz : LinkBudgetModel.allZero p
      · exact ⟨_, if_pos hz⟩
      · rw [if_neg hz]
        by_cases hf0 : p.frequency = 0
        · exact ⟨_, if_pos hf0⟩
        · rw [if_neg hf0]
          rcases hp with hf | hd
          · exact absurd hf hf0
          · exact ⟨_, if_pos hd⟩
    obtain ⟨msg, hmsg⟩ := hv
    exact ⟨msg, by unfold LinkBudgetModel.calculate; rw [hmsg]⟩
  · unfold LinkBudgetCalculator.calculate
    rw [if_neg (by simp [hq])]

/-- C3 witness: with frequency zero (and the other parameters non-zero) the
model variant errors, while the calculator variant, also called with zero
frequency, returns a result record. -/
theorem C3_zero_frequency_distance_witness :
    (∃ msg, LinkBudgetModel.calculate ⟨10, 5, 5, 0, 2000, 290, 1, 10, 1⟩ =
      Except.error msg) ∧
    LinkBudgetCalculator.calculate ⟨0, 30, 3, 3, 160, 290, 1000000, .AWGN⟩ =
      Except.ok (LinkBudgetCalculator.compute ⟨0, 30, 3, 3, 160, 290, 1000000, .AWGN⟩) :=
  C3_zero_frequency_distance ⟨10, 5, 5, 0, 2000, 290, 1, 10, 1⟩
    ⟨0, 30, 3, 3, 160, 290, 1000000, .AWGN⟩ (Or.inl rfl) rfl

/-- C3 (counterexample to the claim as stated).  `LinkBudgetCalculator.calculate`
invoked with `frequency = 0` (AWGN model) does not raise: it returns a numeric
result record. -/
theorem C3_counterexample :
    LinkBudgetCalculator.calculate ⟨0, 20, 2, 2, 120, 290, 1000000, .AWGN⟩ =
      Except.ok (LinkBudgetCalculator.compute ⟨0, 20, 2, 2, 120, 290, 1000000, .AWGN⟩) := by
  unfold LinkBudgetCalculator.calculate
  rw [if_neg (by simp)]

/-- C4.  In both engine variants the returned received power is exactly the
linear dB combination `transmit power + transmit gain + receive gain - path
loss - losses`: directly in `LinkBudgetModel`, and after the round trip
through linear watts (`10 ^ (x/10)` factors multiplied, then
`10 * log10 + 30`) in `LinkBudgetCalculator` (whose only loss term is the
supplied path loss). -/
theorem C4_received_power_linear (p : LinkBudgetModelParams) (q : LinkBudgetCalcParams) :
    (LinkBudgetModel.compute p).received_power =
      (p.transmit_power : ℝ) + (p.transmit_antenna_gain : ℝ) +
        (p.receive_antenna_gain : ℝ) - LinkBudgetModel.freeSpaceLoss p -
        (p.atmospheric_loss : ℝ) ∧
    (LinkBudgetCalculator.compute q).received_power =
      (q.tx_power : ℝ) + (q.tx_antenna_gain : ℝ) + (q.rx_antenna_gain : ℝ) -
        (q.path_loss : ℝ) := by
  constructor
  · rfl
  · simp only [LinkBudgetCalculator.compute]
    rw [← Real.rpow_add (by norm_num : (0:ℝ) < 10),
      ← Real.rpow_add (by norm_num : (0:ℝ) < 10),
      ← Real.rpow_add (by norm_num : (0:ℝ) < 10),
      Real.logb_rpow (by norm_num) (by norm_num)]
    ring

/-- Helper: `logb 10` is strictly monotone along `d ↦ c * d` for positive `d`
and any non-zero factor `c` (`Real.logb` of a negative argument equals the
logarithm of its absolute value). -/
theorem logb_mul_lt (c : ℝ) (hc : c ≠ 0) {d1 d2 : ℝ} (h1 : 0 < d1) (h12 : d1 < d2) :
    Real.logb 10 (c * d1) < Real.logb 10 (c * d2) := by
  rw [← Real.logb_abs (c * d1), ← Real.logb_abs (c * d2), abs_mul, abs_mul,
    abs_of_pos h1, abs_of_pos (h1.trans h12)]
  exact Real.logb_lt_logb (by norm_num) (mul_pos (abs_pos.mpr hc) h1)
    ((mul_lt_mul_left (abs_pos.mpr hc)).mpr h12)

/-- Helper: the free-space-loss formula `20 * log10(4 pi d 1000 / wl)` is
strictly increasing in the distance `d > 0` for any non-zero wavelength. -/
theorem fsl_mono_aux (wl : ℝ) (hwl : wl ≠ 0) {d1 d2 : ℝ} (h1 : 0 < d1) (h12 : d1 < d2) :
    20 * Real.logb 10 (4 * Real.pi * d1 * 1000 / wl) <
      20 * Real.logb 10 (4 * Real.pi * d2 * 1000 / wl) := by
  have hc : (4 * Real.pi * 1000 / wl) ≠ 0 :=
    div_ne_zero (by positivity) hwl
  have e1 : 4 * Real.pi * d1 * 1000 / wl = (4 * Real.pi * 1000 / wl) * d1 := by ring
  have e2 : 4 * Real.pi * d2 * 1000 / wl = (4 * Real.pi * 1000 / wl) * d2 := by ring
  rw [e1, e2]
  have := logb_mul_lt _ hc h1 h12
  linarith

/-- C5.  With a non-zero frequency and all other parameters fixed, increasing
the distance strictly increases the free-space path loss and strictly
decreases the link margin of the computed result. -/
theorem C5_distance_monotonicity (p : LinkBudgetModelParams) (d1 d2 : ℚ)
    (hf : p.frequency ≠ 0) (h1 : 0 < d1) (h12 : d1 < d2) :
    LinkBudgetModel.freeSpaceLoss {p with distance := d1} <
      LinkBudgetModel.freeSpaceLoss {p with distance := d2} ∧
    (LinkBudgetModel.compute {p with distance := d2}).link_margin <
      (LinkBudgetModel.compute {p with distance := d1}).link_margin := by
  have hfr : ((p.frequency : ℝ)) ≠ 0 := by exact_mod_cast hf
  have hwl : LinkBudgetModel.wavelength p ≠ 0 := by
    unfold LinkBudgetModel.wavelength
    exact div_ne_zero (by norm_num) (mul_ne_zero hfr (by norm_num))
  have hfsl : LinkBudgetModel.freeSpaceLoss {p with distance := d1} <
      LinkBudgetModel.freeSpaceLoss {p with distance := d2} :=
    fsl_mono_aux (LinkBudgetModel.wavelength p) hwl
      (show (0:ℝ) < (d1 : ℝ) by exact_mod_cast h1)
      (show ((d1 : ℝ)) < (d2 : ℝ) by exact_mod_cast h12)
  refine ⟨hfsl, ?_⟩
  simp only [LinkBudgetModel.compute, LinkBudgetModel.receivedPower,
    LinkBudgetModel.noisePower]
  linarith [hfsl]

/-- C5 witness: at frequency 2 GHz, moving from 1 km to 2 km strictly
increases the path loss and strictly decreases the link margin. -/
theorem C5_distance_monotonicity_witness :
    LinkBudgetModel.freeSpaceLoss ⟨10, 5, 5, 2, 1, 290, 1, 10, 1⟩ <
      LinkBudgetModel.freeSpaceLoss ⟨10, 5, 5, 2, 2, 290, 1, 10, 1⟩ ∧
    (LinkBudgetModel.compute ⟨10, 5, 5, 2, 2, 290, 1, 10, 1⟩).link_margin <
      (LinkBudgetModel.compute ⟨10, 5, 5, 2, 1, 290, 1, 10, 1⟩).link_margin :=
  C5_distance_monotonicity ⟨10, 5, 5, 2, 2000, 290, 1, 10, 1⟩ 1 2
    (by norm_num) (by norm_num) (by norm_num)

/-- Helper: `log10 100 = 2`. -/
theorem logb_ten_hundred : Real.logb 10 (100 : ℝ) = 2 := by
  rw [show (100 : ℝ) = (10 : ℝ) ^ (2 : ℝ) by
        rw [show (2:ℝ) = ((2:ℕ):ℝ) by norm_num, Real.rpow_natCast]; norm_num,
    Real.logb_rpow (by norm_num) (by norm_num)]

/-- Helper: `log10 1000000 = 6`. -/
theorem logb_ten_million : Real.logb 10 (1000000 : ℝ) = 6 := by
  rw [show (1000000 : ℝ) = (10 : ℝ) ^ (6 : ℝ) by
        rw [show (6:ℝ) = ((6:ℕ):ℝ) by norm_num, Real.rpow_natCast]; norm_num,
    Real.logb_rpow (by norm_num) (by norm_num)]

/-- C6 (amended).  For the Frequency and Distance sweeps,
`calculate_margin_vs_parameter` re-evaluates the path-loss pipeline with the
named parameter replaced and all other stored parameters fixed, but returns
the *received power* at that path loss — which equals the link margin the
full `calculate` would return at the substituted parameter *plus*
`noise_power + required_snr`, not the link margin itself. -/
theorem C6_margin_vs_parameter (p : LinkBudgetModelParams) (x : ℚ) :
    LinkBudgetModel.calculateMarginVsParameter p ParamType.Distance x none =
      Except.ok ((LinkBudgetModel.compute {p with distance := x}).link_margin +
        LinkBudgetModel.noisePower p + (p.required_snr : ℝ)) ∧
    LinkBudgetModel.calculateMarginVsParameter p ParamType.Frequency x none =
      Except.ok ((LinkBudgetModel.compute {p with frequency := x}).link_margin +
        LinkBudgetModel.noisePower p + (p.required_snr : ℝ)) := by
  constructor
  · simp only [LinkBudgetModel.calculateMarginVsParameter,
      LinkBudgetModel.marginVsDistance, LinkBudgetModel.compute,
      LinkBudgetModel.receivedPower, LinkBudgetModel.noisePower,
      LinkBudgetModel.freeSpaceLoss, LinkBudgetModel.wavelength, Except.ok.injEq]
    ring
  · simp only [LinkBudgetModel.calculateMarginVsParameter,
      LinkBudgetModel.marginVsFrequency, LinkBudgetModel.compute,
      LinkBudgetModel.receivedPower, LinkBudgetModel.noisePower,
      LinkBudgetModel.freeSpaceLoss, LinkBudgetModel.wavelength, Except.ok.injEq]
    ring

/-- C6 (counterexample to the claim as stated).  At stored parameters
(10 dBm, 5 dBi, 5 dBi, 2 GHz, 2000 km, 100 K, 1 MHz, 10 dB required SNR,
1 dB loss), sweeping Distance to 500 km returns a value that differs from the
link margin the full `calculate` returns at distance 500 km (they differ by
`noise_power + required_snr = -138.6`). -/
theorem C6_counterexample :
    LinkBudgetModel.calculate ⟨10, 5, 5, 2, 500, 100, 1, 10, 1⟩ =
      Except.ok (LinkBudgetModel.compute ⟨10, 5, 5, 2, 500, 100, 1, 10, 1⟩) ∧
    LinkBudgetModel.calculateMarginVsParameter ⟨10, 5, 5, 2, 2000, 100, 1, 10, 1⟩
        ParamType.Distance 500 none ≠
      Except.ok ((LinkBudgetModel.compute ⟨10, 5, 5, 2, 500, 100, 1, 10, 1⟩).link_margin) := by
  have hnp : LinkBudgetModel.noisePower ⟨10, 5, 5, 2, 500, 100, 1, 10, 1⟩ = -148.6 := by
    unfold LinkBudgetModel.noisePower
    push_cast
    norm_num [logb_ten_hundred, logb_ten_million]
  constructor
  · norm_num [LinkBudgetModel.calculate, LinkBudgetModel.validateInputs,
      LinkBudgetModel.allZero]
  · intro h
    simp only [LinkBudgetModel.calculateMarginVsParameter, Except.ok.injEq] at h
    simp only [LinkBudgetModel.marginVsDistance, LinkBudgetModel.compute,
      LinkBudgetModel.receivedPower, LinkBudgetModel.freeSpaceLoss,
      LinkBudgetModel.wavelength] at h
    rw [hnp] at h
    push_cast at h
    linarith

/-- C7.  The claim (and spec §7) requires NaN/Inf-producing inputs such as
`receiver_bandwidth = 0` to be rejected with an InvalidInput error, but
`_validate_inputs` only checks the all-zero case, frequency and distance:
with `receiver_bandwidth = 0` the model's `calculate` succeeds and returns a
result record (whose noise power involves `log10(0)`, i.e. `-inf` in the
Python floating-point evaluation). -/
theorem C7_no_nan_guard :
    LinkBudgetModel.calculate ⟨10, 5, 5, 2, 500, 290, 0, 10, 1⟩ =
      Except.ok (LinkBudgetModel.compute ⟨10, 5, 5, 2, 500, 290, 0, 10, 1⟩) := by
  norm_num [LinkBudgetModel.calculate, LinkBudgetModel.validateInputs,
    LinkBudgetModel.allZero]

/-- C10.  `LinkBudgetCalculator.calculate` never reads its `frequency`
argument: two AWGN invocations whose parameters differ only in frequency
return identical result records. -/
theorem C10_frequency_no_influence (q : LinkBudgetCalcParams) (f1 f2 : ℚ)
    (_hq : q.propagation_model = PropagationModel.AWGN) :
    LinkBudgetCalculator.calculate {q with frequency := f1} =
      LinkBudgetCalculator.calculate {q with frequency := f2} := rfl

/-- C10 witness: frequencies 1 Hz and 2 Hz, all other arguments equal, give
identical results. -/
theorem C10_frequency_no_influence_witness :
    LinkBudgetCalculator.calculate ⟨1, 30, 3, 3, 160, 290, 1000000, .AWGN⟩ =
      LinkBudgetCalculator.calculate ⟨2, 30, 3, 3, 160, 290, 1000000, .AWGN⟩ :=
  C10_frequency_no_influence ⟨1, 30, 3, 3, 160, 290, 1000000, .AWGN⟩ 1 2 rfl

end CubesatBudget
